import Mathlib

/-!
Shallow embedding of the Maldives Tuna dashboard data transform.

The source component keeps ten hard-coded per-year tables (prices, revenue,
net profit, subsidy, purchase/export/catch tonnages), builds one enriched row
per year (buildRows), then adds year-over-year percentage fields computed
against the previous row (useRowsWithYoY), and finally derives headline KPI
values from the second- and third-to-last rows (MaldivesTunaDashboard).

Numbers are modelled as exact rationals; an absent value (null/undefined in
the source) is Option.none.  The source rounds with Number(x.toFixed(1));
toFixed picks the closest one-decimal number and resolves ties upward, which
is the round1 function below.
-/

namespace Tuna

/-- One-decimal rounding as performed by Number(x.toFixed(1)) in the source:
round to the nearest multiple of 1/10, ties toward positive infinity. -/
def round1 (q : ℚ) : ℚ := ((Rat.floor (q * 10 + 1 / 2) : ℤ) : ℚ) / 10

/-- Local skipjack purchase price (MVR/kg), table localPrice of the source. -/
def localPrice : ℕ → Option ℚ
  | 2021 => some 14
  | 2022 => some 15
  | 2023 => some 23
  | 2024 => some 14
  | 2025 => some 14
  | _ => none

/-- International (Bangkok) skipjack price (MVR/kg), table globalPrice. -/
def globalPrice : ℕ → Option ℚ
  | 2021 => some 25.4
  | 2022 => some 26.2
  | 2023 => some 22.4
  | 2024 => some 23.1
  | 2025 => some 24.1
  | _ => none

/-- MIFCO quay price (MVR/kg), table mifcoLocalPrice. -/
def mifcoLocalPrice : ℕ → Option ℚ
  | 2021 => some 14
  | 2022 => some 15
  | 2023 => some 25
  | 2024 => some 14
  | 2025 => some 16
  | _ => none

/-- MIFCO revenue (MVR), table revenueMvr; 2025 is null in the source. -/
def revenueMvr : ℕ → Option ℚ
  | 2021 => some 1199676000
  | 2022 => some 1634520000
  | 2023 => some 2008805560
  | 2024 => some 1075554268
  | 2025 => none
  | _ => none

/-- Net profit / loss after tax (MVR), table netProfitMvr. -/
def netProfitMvr : ℕ → Option ℚ
  | 2021 => none
  | 2022 => none
  | 2023 => some 298329409
  | 2024 => some (-165639426)
  | 2025 => none
  | _ => none

/-- Subsidy / government support to MIFCO (MVR), table subsidyMvr. -/
def subsidyMvr : ℕ → Option ℚ
  | 2021 => none
  | 2022 => none
  | 2023 => some 250000000
  | 2024 => some 404356780
  | 2025 => some 341814184
  | _ => none

/-- Sector fish purchases (metric tonnes), table purchasesTonnes. -/
def purchasesTonnes : ℕ → Option ℚ
  | 2021 => some 88313
  | 2022 => some 81033
  | 2023 => some 96120
  | 2024 => some 53232
  | 2025 => none
  | _ => none

/-- MIFCO purchases proxy (metric tonnes), table mifcoPurchasesTonnes. -/
def mifcoPurchasesTonnes : ℕ → Option ℚ
  | 2021 => none
  | 2022 => some 55989
  | 2023 => some 62352
  | 2024 => some 50588
  | 2025 => none
  | _ => none

/-- Tuna exports (metric tonnes), table exportsTonnes. -/
def exportsTonnes : ℕ → Option ℚ
  | 2021 => some 66480
  | 2022 => some 65580
  | 2023 => some 64350
  | 2024 => some 31730
  | 2025 => none
  | _ => none

/-- Total fish catch (metric tonnes), table totalCatchTonnes. -/
def totalCatchTonnes : ℕ → Option ℚ
  | 2021 => some 144993
  | 2022 => some 155205
  | 2023 => some 160683
  | 2024 => some 107666
  | 2025 => none
  | _ => none

/-- The ordered year keys of the dataset, constant years of the source. -/
def years : List ℕ := [2021, 2022, 2023, 2024, 2025]

/-- One enriched row as returned by the body of buildRows: the raw fields
carried through plus the derived per-year metrics, each possibly absent. -/
structure Row where
  year : String
  localPrice : Option ℚ
  mifcoLocalPrice : Option ℚ
  globalPrice : Option ℚ
  priceGap : Option ℚ
  priceGapPct : Option ℚ
  priceGapMifco : Option ℚ
  priceGapMifcoPct : Option ℚ
  revenueMvr : Option ℚ
  netProfitMvr : Option ℚ
  revenueMvrMillions : Option ℚ
  netProfitMvrMillions : Option ℚ
  subsidyMvr : Option ℚ
  subsidyMvrMillions : Option ℚ
  purchasesKt : Option ℚ
  exportsKt : Option ℚ
  cashToBoatsMvrM : Option ℚ
  totalCatchKt : Option ℚ
  mifcoPurchasesKt : Option ℚ
  mifcoShareOfCatchPct : Option ℚ
  notes : Option String
  deriving DecidableEq, Repr

/-- The body of the map inside buildRows: build the enriched row for year y.
Each conditional of the form a != null and b != null ? expr : null in the
source is a match on the two optional operands; Number(x.toFixed(1)) is
round1.  The source binds the table lookups to locals first (local, global,
revenue, ...); the keyword-clashing names local and global are rendered
localV and globalV. -/
def buildRow (y : ℕ) : Row :=
  let localV := localPrice y
  let globalV := globalPrice y
  let revenue := revenueMvr y
  let netProfit := netProfitMvr y
  let subsidy := subsidyMvr y
  let purchT := purchasesTonnes y
  let mifcoLocal := mifcoLocalPrice y
  let exportT := exportsTonnes y
  let catchT := totalCatchTonnes y
  let mifcoPurchT := mifcoPurchasesTonnes y
  let cashToBoatsMvrM : Option ℚ :=
    match localV, purchT with
    | some l, some p => some (round1 (l * p * 1000 / 1000000))
    | _, _ => none
  let priceGap : Option ℚ :=
    match localV, globalV with
    | some l, some g => some (round1 (g - l))
    | _, _ => none
  let priceGapMifco : Option ℚ :=
    match mifcoLocal, globalV with
    | some m, some g => some (round1 (g - m))
    | _, _ => none
  { year := toString y
    localPrice := localV
    mifcoLocalPrice := mifcoLocal
    globalPrice := globalV
    priceGap := priceGap
    priceGapPct :=
      match priceGap, localV with
      | some pg, some l => some (round1 (pg / l * 100))
      | _, _ => none
    priceGapMifco := priceGapMifco
    priceGapMifcoPct :=
      match priceGapMifco, mifcoLocal with
      | some pg, some m => some (round1 (pg / m * 100))
      | _, _ => none
    revenueMvr := revenue
    netProfitMvr := netProfit
    revenueMvrMillions :=
      match revenue with
      | some r => some (round1 (r / 1000000))
      | none => none
    netProfitMvrMillions :=
      match netProfit with
      | some np => some (round1 (np / 1000000))
      | none => none
    subsidyMvr := subsidy
    subsidyMvrMillions :=
      match subsidy with
      | some s => some (round1 (s / 1000000))
      | none => none
    purchasesKt :=
      match purchT with
      | some p => some (round1 (p / 1000))
      | none => none
    exportsKt :=
      match exportT with
      | some e => some (round1 (e / 1000))
      | none => none
    cashToBoatsMvrM := cashToBoatsMvrM
    totalCatchKt :=
      match catchT with
      | some c => some (round1 (c / 1000))
      | none => none
    mifcoPurchasesKt :=
      match mifcoPurchT with
      | some mp => some (round1 (mp / 1000))
      | none => none
    mifcoShareOfCatchPct :=
      match mifcoPurchT, catchT with
      | some mp, some c => some (round1 (mp / c * 100))
      | _, _ => none
    notes :=
      if y = 2025 then some "2025 prices YTD; revenue not yet published; subsidy is budgeted"
      else if y = 2024 then some "Subsidy recorded net against cost of sales (MVR 4/kg scheme)"
      else if y = 2023 then some "Grant recorded in Other Income; fixed price policy in effect (Sep)"
      else none }

/-- buildRows generalised over the list of year keys it maps over; the
source's buildRows is this applied to the constant years. -/
def buildRowsOf (ys : List ℕ) : List Row := ys.map buildRow

/-- buildRows of the source: one enriched row per year of the dataset. -/
def buildRows : List Row := buildRowsOf years

/-- The yoy helper of the source: percentage change from prev to curr,
rounded to one decimal; null when either endpoint is null or prev is 0. -/
def yoy (curr prev : Option ℚ) : Option ℚ :=
  match curr, prev with
  | some c, some p => if p = 0 then none else some (round1 ((c - p) / p * 100))
  | _, _ => none

/-- A row together with the five year-over-year fields added by
useRowsWithYoY (the spread ...row keeps every field of the base row). -/
structure RowY extends Row where
  yoyLocal : Option ℚ
  yoyGlobal : Option ℚ
  yoyRevenue : Option ℚ
  yoyNetProfit : Option ℚ
  yoySubsidy : Option ℚ
  deriving DecidableEq, Repr

/-- The body of the map inside useRowsWithYoY: spread the row and add the
five yoy fields computed against the optional previous row (prev may be
undefined for the first row; prev?.field ?? null is Option.bind). -/
def enrichRow (prev : Option Row) (row : Row) : RowY :=
  { toRow := row
    yoyLocal := yoy row.localPrice (prev.bind Row.localPrice)
    yoyGlobal := yoy row.globalPrice (prev.bind Row.globalPrice)
    yoyRevenue := yoy row.revenueMvrMillions (prev.bind Row.revenueMvrMillions)
    yoyNetProfit := yoy row.netProfitMvrMillions (prev.bind Row.netProfitMvrMillions)
    yoySubsidy := yoy row.subsidyMvrMillions (prev.bind Row.subsidyMvrMillions) }

/-- The indexed map of useRowsWithYoY: each row is enriched with yoy fields
computed against rows[idx - 1] when idx > 0 and against no row otherwise. -/
def addYoY (rows : List Row) : List RowY :=
  rows.mapIdx fun idx row =>
    enrichRow (if idx > 0 then rows[idx - 1]? else none) row

/-- useRowsWithYoY of the source (the useMemo hooks only cache the pure
result): the full enriched dataset consumed by the dashboard component. -/
def useRowsWithYoY : List RowY := addYoY buildRows

/-- The data binding of the MaldivesTunaDashboard component. -/
def data : List RowY := useRowsWithYoY

/-- latest of the component: data[data.length - 2], the 2024 headline row. -/
def latest : Option RowY := data[data.length - 2]?

/-- prev of the component: data[data.length - 3], the 2023 comparison row. -/
def prev : Option RowY := data[data.length - 3]?

/-- priceCollapse of the component: yoy of latest vs prev local price. -/
def priceCollapse : Option ℚ :=
  yoy (latest.bind fun r => r.toRow.localPrice) (prev.bind fun r => r.toRow.localPrice)

/-- revenueDrop headline metric of the component. -/
def revenueDrop : Option ℚ :=
  match latest.bind fun r => r.toRow.revenueMvrMillions,
        prev.bind fun r => r.toRow.revenueMvrMillions with
  | some l, some p => some (round1 ((l - p) / p * 100))
  | _, _ => none

/-- subsidyYoY headline metric of the component. -/
def subsidyYoY : Option ℚ :=
  match latest.bind fun r => r.toRow.subsidyMvrMillions,
        prev.bind fun r => r.toRow.subsidyMvrMillions with
  | some l, some p => some (round1 ((l - p) / p * 100))
  | _, _ => none

/-- purchasesDrop headline metric of the component. -/
def purchasesDrop : Option ℚ :=
  match latest.bind fun r => r.toRow.purchasesKt,
        prev.bind fun r => r.toRow.purchasesKt with
  | some l, some p => some (round1 ((l - p) / p * 100))
  | _, _ => none

/-- exportsDrop headline metric of the component. -/
def exportsDrop : Option ℚ :=
  match latest.bind fun r => r.toRow.exportsKt,
        prev.bind fun r => r.toRow.exportsKt with
  | some l, some p => some (round1 ((l - p) / p * 100))
  | _, _ => none

/-- Helper: yoy against an absent previous value is absent. -/
theorem yoy_none_right (c : Option ℚ) : yoy c none = none := by
  cases c <;> rfl

/-- Helper: yoy on two present values with nonzero previous value is the
rounded percentage change. -/
theorem yoy_some_some (c p : ℚ) (hp : p ≠ 0) :
    yoy (some c) (some p) = some (round1 ((c - p) / p * 100)) := by
  unfold yoy
  exact if_neg hp

/-- Helper: yoy against a present zero previous value is absent. -/
theorem yoy_some_zero (c : ℚ) : yoy (some c) (some 0) = none := by
  unfold yoy
  exact if_pos rfl

/-- Helper: the executable Batteries floor on rationals agrees with the
mathematical floor. -/
theorem rat_floor_eq_floor (a : ℚ) : Rat.floor a = ⌊a⌋ :=
  (Rat.floor_def' a).trans Rat.floor_def.symm

/-- Helper: round1 evaluates to n / 10 whenever n is the integer part of
q * 10 + 1 / 2. -/
theorem round1_eq_div (q : ℚ) (n : ℤ) (h1 : (n : ℚ) ≤ q * 10 + 1 / 2)
    (h2 : q * 10 + 1 / 2 < (n : ℚ) + 1) : round1 q = (n : ℚ) / 10 := by
  unfold round1
  rw [rat_floor_eq_floor]
  congr 2
  exact Int.floor_eq_iff.mpr ⟨h1, h2⟩

/-- Concrete evaluation: 2023 revenue scaled to millions rounds to 2008.8. -/
theorem round1_rev2023 : round1 (2008805560 / 1000000) = (2008.8 : ℚ) := by
  rw [round1_eq_div (2008805560 / 1000000) 20088 (by norm_num) (by norm_num)]
  norm_num

/-- Concrete evaluation: 2024 revenue scaled to millions rounds to 1075.6. -/
theorem round1_rev2024 : round1 (1075554268 / 1000000) = (1075.6 : ℚ) := by
  rw [round1_eq_div (1075554268 / 1000000) 10756 (by norm_num) (by norm_num)]
  norm_num

/-- Concrete evaluation: the rounded 2024 revenue year-over-year change over
the already-rounded millions values is minus 46.5, not minus 46.4. -/
theorem round1_yoyRev : round1 ((1075.6 - 2008.8) / 2008.8 * 100) = (-46.5 : ℚ) := by
  rw [round1_eq_div ((1075.6 - 2008.8) / 2008.8 * 100) (-465) (by norm_num) (by norm_num)]
  norm_num

/-- Concrete evaluation: 2023 subsidy scaled to millions rounds to 250. -/
theorem round1_sub2023 : round1 (250000000 / 1000000) = (250 : ℚ) := by
  rw [round1_eq_div (250000000 / 1000000) 2500 (by norm_num) (by norm_num)]
  norm_num

/-- Concrete evaluation: 2024 subsidy scaled to millions rounds to 404.4. -/
theorem round1_sub2024 : round1 (404356780 / 1000000) = (404.4 : ℚ) := by
  rw [round1_eq_div (404356780 / 1000000) 4044 (by norm_num) (by norm_num)]
  norm_num

/-- Concrete evaluation: the subsidy year-over-year change rounds to 61.8. -/
theorem round1_subYoY : round1 ((404.4 - 250) / 250 * 100) = (61.8 : ℚ) := by
  rw [round1_eq_div ((404.4 - 250) / 250 * 100) 618 (by norm_num) (by norm_num)]
  norm_num

/-- Concrete evaluation: 2023 purchases scaled to kilotonnes round to 96.1. -/
theorem round1_purch2023 : round1 (96120 / 1000) = (96.1 : ℚ) := by
  rw [round1_eq_div (96120 / 1000) 961 (by norm_num) (by norm_num)]
  norm_num

/-- Concrete evaluation: 2024 purchases scaled to kilotonnes round to 53.2. -/
theorem round1_purch2024 : round1 (53232 / 1000) = (53.2 : ℚ) := by
  rw [round1_eq_div (53232 / 1000) 532 (by norm_num) (by norm_num)]
  norm_num

/-- Concrete evaluation: the purchases year-over-year change rounds to
minus 44.6. -/
theorem round1_purchYoY : round1 ((53.2 - 96.1) / 96.1 * 100) = (-44.6 : ℚ) := by
  rw [round1_eq_div ((53.2 - 96.1) / 96.1 * 100) (-446) (by norm_num) (by norm_num)]
  norm_num

/-- C1: for every year record produced by the row-building transform, each
within-record derived metric (priceGap, priceGapPct, priceGapMifco,
priceGapMifcoPct, cashToBoatsMvrM, revenueMvrMillions, netProfitMvrMillions,
subsidyMvrMillions, purchasesKt, exportsKt, totalCatchKt, mifcoPurchasesKt,
mifcoShareOfCatchPct) is present exactly when every raw operand it depends
on is present; when any operand is absent the derived value is Option.none,
never a numeric sentinel (in this rational model every present value is a
finite rational by construction, so no NaN or infinity can appear). -/
theorem C1_derived_absence (y : ℕ) :
    ((buildRow y).priceGap = none ↔ localPrice y = none ∨ globalPrice y = none) ∧
    ((buildRow y).priceGapPct = none ↔ localPrice y = none ∨ globalPrice y = none) ∧
    ((buildRow y).priceGapMifco = none ↔ mifcoLocalPrice y = none ∨ globalPrice y = none) ∧
    ((buildRow y).priceGapMifcoPct = none ↔ mifcoLocalPrice y = none ∨ globalPrice y = none) ∧
    ((buildRow y).cashToBoatsMvrM = none ↔ localPrice y = none ∨ purchasesTonnes y = none) ∧
    ((buildRow y).revenueMvrMillions = none ↔ revenueMvr y = none) ∧
    ((buildRow y).netProfitMvrMillions = none ↔ netProfitMvr y = none) ∧
    ((buildRow y).subsidyMvrMillions = none ↔ subsidyMvr y = none) ∧
    ((buildRow y).purchasesKt = none ↔ purchasesTonnes y = none) ∧
    ((buildRow y).exportsKt = none ↔ exportsTonnes y = none) ∧
    ((buildRow y).totalCatchKt = none ↔ totalCatchTonnes y = none) ∧
    ((buildRow y).mifcoPurchasesKt = none ↔ mifcoPurchasesTonnes y = none) ∧
    ((buildRow y).mifcoShareOfCatchPct = none ↔
      mifcoPurchasesTonnes y = none ∨ totalCatchTonnes y = none) := by
  refine ⟨?_, ?_, ?_, ?_, ?_, ?_, ?_, ?_, ?_, ?_, ?_, ?_, ?_⟩
  · cases h1 : localPrice y <;> cases h2 : globalPrice y <;> simp [buildRow, h1, h2]
  · cases h1 : localPrice y <;> cases h2 : globalPrice y <;> simp [buildRow, h1, h2]
  · cases h1 : mifcoLocalPrice y <;> cases h2 : globalPrice y <;> simp [buildRow, h1, h2]
  · cases h1 : mifcoLocalPrice y <;> cases h2 : globalPrice y <;> simp [buildRow, h1, h2]
  · cases h1 : localPrice y <;> cases h2 : purchasesTonnes y <;> simp [buildRow, h1, h2]
  · cases h1 : revenueMvr y <;> simp [buildRow, h1]
  · cases h1 : netProfitMvr y <;> simp [buildRow, h1]
  · cases h1 : subsidyMvr y <;> simp [buildRow, h1]
  · cases h1 : purchasesTonnes y <;> simp [buildRow, h1]
  · cases h1 : exportsTonnes y <;> simp [buildRow, h1]
  · cases h1 : totalCatchTonnes y <;> simp [buildRow, h1]
  · cases h1 : mifcoPurchasesTonnes y <;> simp [buildRow, h1]
  · cases h1 : mifcoPurchasesTonnes y <;> cases h2 : totalCatchTonnes y <;>
      simp [buildRow, h1, h2]

/-- C2: if either the current or the previous value passed to the
year-over-year computation is absent, the result is absent. -/
theorem C2_yoy_absent_operand (curr prev : Option ℚ) (h : curr = none ∨ prev = none) :
    yoy curr prev = none := by
  rcases h with h | h
  · subst h
    cases prev <;> rfl
  · subst h
    exact yoy_none_right curr

/-- Witness for C2 at a concrete input: a present current value and an
absent previous value give an absent result. -/
theorem C2_yoy_absent_operand_witness : yoy (some 23) none = none :=
  C2_yoy_absent_operand (some 23) none (Or.inr rfl)

/-- C3: if the previous value is exactly 0, the year-over-year result is
absent, and any present result arises only from present endpoints with a
nonzero previous value, as the rounded finite percentage change; hence no
division by zero is ever performed and no infinite or NaN value occurs. -/
theorem C3_yoy_zero_guard (curr prev : Option ℚ) :
    (prev = some 0 → yoy curr prev = none) ∧
    ∀ q, yoy curr prev = some q →
      ∃ c p, curr = some c ∧ prev = some p ∧ p ≠ 0 ∧ q = round1 ((c - p) / p * 100) := by
  constructor
  · rintro rfl
    cases curr with
    | none => rfl
    | some c => exact yoy_some_zero c
  · intro q hq
    cases curr with
    | none => cases prev <;> simp [yoy] at hq
    | some c =>
      cases prev with
      | none =>
        rw [yoy_none_right] at hq
        exact absurd hq (by simp)
      | some p =>
        by_cases hp : p = 0
        · subst hp
          rw [yoy_some_zero] at hq
          exact absurd hq (by simp)
        · refine ⟨c, p, rfl, rfl, hp, ?_⟩
          rw [yoy_some_some c p hp] at hq
          exact (Option.some_inj.mp hq).symm

/-- Witness for C3 at a concrete input: previous value 0 gives an absent
year-over-year result. -/
theorem C3_yoy_zero_guard_witness : yoy (some 14) (some 0) = none :=
  (C3_yoy_zero_guard (some 14) (some 0)).1 rfl

/-- C4 counterexample: on the hard-coded dataset the 2024 yoyRevenue field
is minus 46.5, because round((1075.6 - 2008.8) / 2008.8 * 100, 1) is
minus 46.5; the value minus 46.4 stated by the claim is not produced. -/
theorem C4_counterexample :
    (useRowsWithYoY[3]?).map (fun r => r.yoyRevenue) = some (some (-46.5 : ℚ)) ∧
    round1 ((1075.6 - 2008.8) / 2008.8 * 100) ≠ (-46.4 : ℚ) ∧
    (useRowsWithYoY[3]?).map (fun r => r.yoyRevenue) ≠ some (some (-46.4 : ℚ)) := by
  have e : (useRowsWithYoY[3]?).map (fun r => r.yoyRevenue)
      = some (yoy (some (round1 (1075554268 / 1000000)))
          (some (round1 (2008805560 / 1000000)))) := rfl
  have hv : (useRowsWithYoY[3]?).map (fun r => r.yoyRevenue) = some (some (-46.5 : ℚ)) := by
    rw [e, round1_rev2024, round1_rev2023, yoy_some_some _ _ (by norm_num), round1_yoyRev]
  refine ⟨hv, ?_, ?_⟩
  · rw [round1_yoyRev]
    norm_num
  · rw [hv]
    simp only [ne_eq, Option.some.injEq]
    norm_num

/-- C4 amended: with revenue 2023 = 2008805560 and 2024 = 1075554268 the
transform produces revenueMvrMillions 2023 = 2008.8 and 2024 = 1075.6, and
the 2024 yoyRevenue field equals round((1075.6 - 2008.8) / 2008.8 * 100, 1)
= minus 46.5, i.e. the YoY is computed over the already-rounded millions
values, not over the raw revenue figures. -/
theorem C4_amended_yoy_over_rounded :
    revenueMvr 2023 = some 2008805560 ∧
    revenueMvr 2024 = some 1075554268 ∧
    (buildRows[2]?).map (fun r => r.revenueMvrMillions) = some (some (2008.8 : ℚ)) ∧
    (buildRows[3]?).map (fun r => r.revenueMvrMillions) = some (some (1075.6 : ℚ)) ∧
    (useRowsWithYoY[3]?).map (fun r => r.yoyRevenue)
      = some (some (round1 ((1075.6 - 2008.8) / 2008.8 * 100))) ∧
    round1 ((1075.6 - 2008.8) / 2008.8 * 100) = (-46.5 : ℚ) := by
  refine ⟨rfl, rfl, ?_, ?_, ?_, round1_yoyRev⟩
  · have e : (buildRows[2]?).map (fun r => r.revenueMvrMillions)
        = some (some (round1 (2008805560 / 1000000))) := rfl
    rw [e, round1_rev2023]
  · have e : (buildRows[3]?).map (fun r => r.revenueMvrMillions)
        = some (some (round1 (1075554268 / 1000000))) := rfl
    rw [e, round1_rev2024]
  · have e : (useRowsWithYoY[3]?).map (fun r => r.yoyRevenue)
        = some (yoy (some (round1 (1075554268 / 1000000)))
            (some (round1 (2008805560 / 1000000)))) := rfl
    rw [e, round1_rev2024, round1_rev2023, yoy_some_some _ _ (by norm_num)]

/-- C5: for every input sequence of year keys, the transform (buildRows
composed with the year-over-year enrichment) returns a sequence of exactly
the same length, and the i-th output row is the enrichment of the i-th
input record against the (i-1)-th one. -/
theorem C5_length_and_order (ys : List ℕ) :
    (addYoY (buildRowsOf ys)).length = ys.length ∧
    ∀ i : ℕ, (addYoY (buildRowsOf ys))[i]? =
      (ys[i]?).map fun y =>
        enrichRow (if i = 0 then none else (ys[i - 1]?).map buildRow) (buildRow y) := by
  constructor
  · simp [addYoY, buildRowsOf]
  · intro i
    simp only [addYoY, buildRowsOf, List.getElem?_mapIdx, List.getElem?_map]
    cases i with
    | zero => simp [Function.comp_def]
    | succ n => simp [List.getElem?_map, Option.map_map, Function.comp_def]

/-- C6: the row-building transform is deterministic: it is a pure function
of its input sequence, so evaluating it on equal inputs (in particular,
twice on the fixed hard-coded tables) yields identical output sequences. -/
theorem C6_deterministic (rows1 rows2 : List Row) (h : rows1 = rows2) :
    addYoY rows1 = addYoY rows2 := by
  subst h
  rfl

/-- Witness for C6 at the concrete fixed dataset: two evaluations of the
transform on the hard-coded tables agree. -/
theorem C6_deterministic_witness : addYoY buildRows = addYoY buildRows :=
  C6_deterministic buildRows buildRows rfl

/-- C7: scaling any raw monetary value to millions as done by the transform
(divide by 1000000 and round to one decimal) and scaling back reproduces
the value within the one-decimal rounding tolerance of 50000. -/
theorem C7_millions_roundtrip (v : ℚ) : |round1 (v / 1000000) * 1000000 - v| ≤ 50000 := by
  unfold round1
  rw [rat_floor_eq_floor]
  have h1 : ((⌊v / 1000000 * 10 + 1 / 2⌋ : ℤ) : ℚ) ≤ v / 1000000 * 10 + 1 / 2 :=
    Int.floor_le _
  have h2 : v / 1000000 * 10 + 1 / 2 - 1 < ((⌊v / 1000000 * 10 + 1 / 2⌋ : ℤ) : ℚ) :=
    Int.sub_one_lt_floor _
  rw [abs_le]
  constructor
  · linarith
  · linarith

/-- C8: for the first record of any non-empty input, every year-over-year
field of the corresponding output row is absent, because no preceding
record exists. -/
theorem C8_first_row_yoy_none (rows : List Row) (hr : RowY)
    (h : (addYoY rows).head? = some hr) :
    hr.yoyLocal = none ∧ hr.yoyGlobal = none ∧ hr.yoyRevenue = none ∧
      hr.yoyNetProfit = none ∧ hr.yoySubsidy = none := by
  cases rows with
  | nil => simp [addYoY] at h
  | cons r rest =>
    rw [addYoY, List.mapIdx_cons, List.head?_cons, Option.some_inj] at h
    subst h
    exact ⟨yoy_none_right _, yoy_none_right _, yoy_none_right _, yoy_none_right _,
      yoy_none_right _⟩

/-- Witness for C8 at the concrete fixed dataset: the first output row
(year 2021) has every year-over-year field absent. -/
theorem C8_first_row_yoy_none_witness :
    (enrichRow none (buildRow 2021)).yoyLocal = none ∧
    (enrichRow none (buildRow 2021)).yoyGlobal = none ∧
    (enrichRow none (buildRow 2021)).yoyRevenue = none ∧
    (enrichRow none (buildRow 2021)).yoyNetProfit = none ∧
    (enrichRow none (buildRow 2021)).yoySubsidy = none :=
  C8_first_row_yoy_none buildRows (enrichRow none (buildRow 2021)) rfl

/-- C9: raw fields are passed into the output rows unchanged: localPrice,
mifcoLocalPrice, globalPrice, revenueMvr, netProfitMvr and subsidyMvr of a
built row are exactly the corresponding raw table values (absent values
included), and the year-over-year enrichment keeps the whole base row
intact, only adding derived fields. -/
theorem C9_raw_passthrough (y : ℕ) (p : Option Row) (r : Row) :
    (buildRow y).localPrice = localPrice y ∧
    (buildRow y).mifcoLocalPrice = mifcoLocalPrice y ∧
    (buildRow y).globalPrice = globalPrice y ∧
    (buildRow y).revenueMvr = revenueMvr y ∧
    (buildRow y).netProfitMvr = netProfitMvr y ∧
    (buildRow y).subsidyMvr = subsidyMvr y ∧
    (enrichRow p r).toRow = r :=
  ⟨rfl, rfl, rfl, rfl, rfl, rfl, rfl⟩

/-- C10: the headline KPI values come from the second-to-last row (index 3,
year 2024) compared against the third-to-last row (index 2, year 2023), not
from the last row (year 2025); on the 5-row dataset both indices are in
bounds, the headline year is 2024, and the derived headline metrics take
the stated concrete values. -/
theorem C10_headline_from_2024_row :
    data.length = 5 ∧
    latest = data[3]? ∧
    prev = data[2]? ∧
    latest.map (fun r => r.year) = some "2024" ∧
    prev.map (fun r => r.year) = some "2023" ∧
    (data[4]?).map (fun r => r.year) = some "2025" ∧
    latest.map (fun r => r.localPrice) = some (some (14 : ℚ)) ∧
    latest.map (fun r => r.globalPrice) = some (some (23.1 : ℚ)) ∧
    latest.map (fun r => r.revenueMvrMillions) = some (some (1075.6 : ℚ)) ∧
    latest.map (fun r => r.subsidyMvrMillions) = some (some (404.4 : ℚ)) ∧
    revenueDrop = some (-46.5 : ℚ) ∧
    subsidyYoY = some (61.8 : ℚ) ∧
    purchasesDrop = some (-44.6 : ℚ) ∧
    exportsDrop.isSome = true := by
  refine ⟨rfl, rfl, rfl, rfl, rfl, rfl, rfl, rfl, ?_, ?_, ?_, ?_, ?_, rfl⟩
  · have e : latest.map (fun r => r.revenueMvrMillions)
        = some (some (round1 (1075554268 / 1000000))) := rfl
    rw [e, round1_rev2024]
  · have e : latest.map (fun r => r.subsidyMvrMillions)
        = some (some (round1 (404356780 / 1000000))) := rfl
    rw [e, round1_sub2024]
  · have e : revenueDrop
        = some (round1 ((round1 (1075554268 / 1000000) - round1 (2008805560 / 1000000))
            / round1 (2008805560 / 1000000) * 100)) := rfl
    rw [e, round1_rev2024, round1_rev2023, round1_yoyRev]
  · have e : subsidyYoY
        = some (round1 ((round1 (404356780 / 1000000) - round1 (250000000 / 1000000))
            / round1 (250000000 / 1000000) * 100)) := rfl
    rw [e, round1_sub2024, round1_sub2023, round1_subYoY]
  · have e : purchasesDrop
        = some (round1 ((round1 (53232 / 1000) - round1 (96120 / 1000))
            / round1 (96120 / 1000) * 100)) := rfl
    rw [e, round1_purch2024, round1_purch2023, round1_purchYoY]

end Tuna
